import Mathlib

/-!
Shallow embedding of the Olifera-Server storefront backend (cart and order
routes) and proofs about the claims of its specification.

The embedding translates the route handlers of `src/routes/cart.js` and
`src/routes/orders.js` into pure Lean functions over an explicit database
state.  SQL statements issued through `executeQuery` are modelled as list
operations on the corresponding tables:

* `SELECT ... WHERE p` is `List.filter`, with `rows[0]` the head of the
  filtered list (mirroring the JS `rows.length === 0` / `rows[0]` pattern);
* `INSERT` appends a row (auto-increment ids come from explicit counters);
* `UPDATE ... WHERE p` maps over the table, rewriting every matching row;
* `DELETE ... WHERE p` filters the table.

Monetary values (`DECIMAL(10,2)` columns fed by JS numbers) are modelled as
rationals; `stock` is a signed `INT` column (no CHECK constraint in the DDL),
so it is modelled as `Int` and can go negative.  Identifiers supplied by
external generators (`uuidv4()`, `generateOrderNumber()`) and the outcome of
the SMTP send are passed in as parameters.
-/

namespace Olifera

/-- Order status enum, from the `orders.status` ENUM column. -/
inductive OrderStatus
  | pending
  | processing
  | shipped
  | delivered
  | cancelled
deriving DecidableEq, Repr

/-- Row of the `products` table (fields used by the cart/order routes).
`stock` is a signed `INT` with no CHECK constraint, hence `Int`. -/
structure Product where
  id : Nat
  name : String
  price : ℚ
  stock : Int
  active : Bool
deriving DecidableEq, Repr

/-- Row of the `cart_sessions` table: an opaque session token, optionally
bound to a user. -/
structure CartSession where
  session_id : String
  user_id : Option Nat
deriving DecidableEq, Repr

/-- Row of the `cart_items` table. -/
structure CartItem where
  id : Nat
  session_id : String
  product_id : Nat
  quantity : Nat
deriving DecidableEq, Repr

/-- Row of the `orders` table (fields written by the active create-order
route). -/
structure Order where
  id : Nat
  order_number : String
  user_id : Nat
  status : OrderStatus
  subtotal : ℚ
  shipping_cost : ℚ
  tax_amount : ℚ
  total_amount : ℚ
  shipping_address : String
  shipping_city : String
  shipping_state : String
  shipping_zip_code : String
  shipping_method : String
deriving DecidableEq, Repr

/-- Row of the `order_items` table: a frozen snapshot of one product line. -/
structure OrderItem where
  order_id : Nat
  product_id : Nat
  product_name : String
  product_price : ℚ
  quantity : Nat
  total_price : ℚ
deriving DecidableEq, Repr

/-- The database state seen by the cart and order routes.  The two counters
model the AUTO_INCREMENT ids of `cart_items` and `orders`. -/
structure DB where
  products : List Product
  cart_sessions : List CartSession
  cart_items : List CartItem
  orders : List Order
  order_items : List OrderItem
  nextCartItemId : Nat
  nextOrderId : Nat
deriving DecidableEq, Repr

/-! ## Cart routes (`src/routes/cart.js`) -/

/-- The logged-in branch shared by `getOrCreateCartSession` and the merge
route: `SELECT session_id FROM cart_sessions WHERE user_id = ?`, reuse the
first row if any, otherwise `INSERT` a fresh session bound to the user.
`freshId` stands for the externally generated `uuidv4()`. -/
def resolveUserSession (db : DB) (userId : Nat) (freshId : String) :
    String × DB :=
  match db.cart_sessions.filter (fun s => decide (s.user_id = some userId)) with
  | [] => (freshId,
      { db with cart_sessions := db.cart_sessions ++ [⟨freshId, some userId⟩] })
  | s :: _ => (s.session_id, db)

/-- `getOrCreateCartSession(userId)` of `cart.js`: for a logged-in user,
look up/create the user's session; for a guest, always `INSERT` a brand-new
session (the guest branch never reads a supplied token). -/
def getOrCreateCartSession (db : DB) (userId : Option Nat) (freshId : String) :
    String × DB :=
  match userId with
  | some u => resolveUserSession db u freshId
  | none => (freshId,
      { db with cart_sessions := db.cart_sessions ++ [⟨freshId, none⟩] })

/-- Outcome of `POST /cart/add`.  `ok` carries the sessionId field of the
response body, which is `null` for authenticated callers. -/
inductive CartAddResult
  | validationFailed
  | productNotFound
  | insufficientStock
  | ok (sessionId : Option String)
deriving DecidableEq, Repr

/-- `POST /cart/add`: validate, look up the active product, check stock
against the requested quantity, resolve a session, then upsert the cart
line (additive on an existing line, with a cumulative stock check). -/
def addItem (db : DB) (user : Option Nat) (productId : Nat) (quantity : Nat)
    (freshId : String) : CartAddResult × DB :=
  if quantity < 1 ∨ productId < 1 then (.validationFailed, db)
  else
    match db.products.filter
        (fun p => decide (p.id = productId ∧ p.active = true)) with
    | [] => (.productNotFound, db)
    | p :: _ =>
      if p.stock < (quantity : Int) then (.insufficientStock, db)
      else
        let r := getOrCreateCartSession db user freshId
        match r.snd.cart_items.filter
            (fun ci => decide (ci.session_id = r.fst ∧ ci.product_id = productId)) with
        | existing :: _ =>
          if p.stock < ((existing.quantity + quantity : Nat) : Int) then
            (.insufficientStock, r.snd)
          else
            (.ok (match user with | some _ => none | none => some r.fst),
             { r.snd with cart_items := (r.snd.cart_items.map
                 (fun ci => if ci.id = existing.id then
                     { ci with quantity := existing.quantity + quantity }
                   else ci)) })
        | [] =>
          (.ok (match user with | some _ => none | none => some r.fst),
           { r.snd with
               cart_items := r.snd.cart_items ++
                 [⟨r.snd.nextCartItemId, r.fst, productId, quantity⟩],
               nextCartItemId := r.snd.nextCartItemId + 1 })

/-- Outcome of `PUT /cart/update/:itemId`. -/
inductive CartUpdateResult
  | validationFailed
  | notFound
  | forbidden
  | insufficientStock
  | removed
  | updated
deriving DecidableEq, Repr

/-- Shared tail of the update route, after the row lookup and the
(authenticated-only) ownership check: quantity 0 deletes the line, a
quantity above stock fails, otherwise the quantity is replaced. -/
def updateItemApply (db : DB) (itemId : Nat) (quantity : Nat) (stock : Int) :
    CartUpdateResult × DB :=
  if quantity = 0 then
    (.removed,
     { db with cart_items := (db.cart_items.filter
         (fun ci => decide (ci.id ≠ itemId))) })
  else if stock < (quantity : Int) then (.insufficientStock, db)
  else
    (.updated,
     { db with cart_items := (db.cart_items.map
         (fun ci => if ci.id = itemId then { ci with quantity := quantity }
           else ci)) })

/-- `PUT /cart/update/:itemId`: look up the cart line joined with its
product; if the caller is authenticated, require a session row binding the
line's session to that user (anonymous callers are not checked); then apply
the update. -/
def updateItem (db : DB) (user : Option Nat) (itemId : Nat) (quantity : Nat) :
    CartUpdateResult × DB :=
  match db.cart_items.filter (fun ci => decide (ci.id = itemId)) with
  | [] => (.notFound, db)
  | ci :: _ =>
    match db.products.filter (fun p => decide (p.id = ci.product_id)) with
    | [] => (.notFound, db)
    | p :: _ =>
      match user with
      | some u =>
        if db.cart_sessions.filter
            (fun s => decide (s.session_id = ci.session_id ∧ s.user_id = some u))
            = [] then
          (.forbidden, db)
        else updateItemApply db itemId quantity p.stock
      | none => updateItemApply db itemId quantity p.stock

/-- Outcome of `DELETE /cart/remove/:itemId`. -/
inductive CartRemoveResult
  | notFound
  | forbidden
  | removed
deriving DecidableEq, Repr

/-- `DELETE /cart/remove/:itemId`: look up the line; authenticated callers
must own the session (anonymous callers are not checked); delete the line. -/
def removeItem (db : DB) (user : Option Nat) (itemId : Nat) :
    CartRemoveResult × DB :=
  match db.cart_items.filter (fun ci => decide (ci.id = itemId)) with
  | [] => (.notFound, db)
  | ci :: _ =>
    match user with
    | some u =>
      if db.cart_sessions.filter
          (fun s => decide (s.session_id = ci.session_id ∧ s.user_id = some u))
          = [] then
        (.forbidden, db)
      else
        (.removed,
         { db with cart_items := (db.cart_items.filter
             (fun x => decide (x.id ≠ itemId))) })
    | none =>
      (.removed,
       { db with cart_items := (db.cart_items.filter
           (fun x => decide (x.id ≠ itemId))) })

/-- Outcome of `POST /cart/merge`. -/
inductive MergeResult
  | missingSession
  | merged
deriving DecidableEq, Repr

/-- One iteration of the merge loop: if the user's cart already holds the
guest item's product, add the quantities on the existing row, otherwise
insert the guest line under the user's session. -/
def mergeOneItem (userSessionId : String) (db : DB) (gi : CartItem) : DB :=
  match db.cart_items.filter
      (fun ci => decide (ci.session_id = userSessionId ∧
        ci.product_id = gi.product_id)) with
  | existing :: _ =>
    { db with cart_items := (db.cart_items.map
        (fun ci => if ci.id = existing.id then
            { ci with quantity := existing.quantity + gi.quantity }
          else ci)) }
  | [] =>
    { db with
        cart_items := db.cart_items ++
          [⟨db.nextCartItemId, userSessionId, gi.product_id, gi.quantity⟩],
        nextCartItemId := db.nextCartItemId + 1 }

/-- The merge loop over all guest cart lines. -/
def mergeGuestItems (userSessionId : String) (db : DB)
    (guestItems : List CartItem) : DB :=
  guestItems.foldl (mergeOneItem userSessionId) db

/-- The two trailing `DELETE` statements of the merge route: drop the guest
session row and every cart line under the guest session. -/
def deleteGuestSession (db : DB) (g : String) : DB :=
  { db with
      cart_sessions := (db.cart_sessions.filter
        (fun s => decide (s.session_id ≠ g))),
      cart_items := (db.cart_items.filter
        (fun ci => decide (ci.session_id ≠ g))) }

/-- `POST /cart/merge` body, after the falsy-sessionId guard: resolve the
user's session (creating one when absent), fold the guest lines into it,
then delete the guest session and its lines. -/
def mergeCartsCore (db : DB) (userId : Nat) (g : String) (freshId : String) :
    MergeResult × DB :=
  let r := resolveUserSession db userId freshId
  (.merged,
   deleteGuestSession
     (mergeGuestItems r.fst r.snd
       (r.snd.cart_items.filter (fun ci => decide (ci.session_id = g)))) g)

/-- `POST /cart/merge`: a missing or empty (falsy) `sessionId` is rejected
with 400, otherwise the merge body runs.  `freshId` is the `uuidv4()` used
when the user has no session yet. -/
def mergeCarts (db : DB) (userId : Nat) (sessionId : Option String)
    (freshId : String) : MergeResult × DB :=
  match sessionId with
  | none => (.missingSession, db)
  | some g => if g = "" then (.missingSession, db) else mergeCartsCore db userId g freshId

/-! ## Order routes (`src/routes/orders.js`) -/

/-- `sendOrderConfirmationEmail` of `config/emailConfig`: the whole body is
wrapped in try/catch, returning `true` when `transporter.sendMail`
succeeds and `false` (after logging) when it throws.  The argument is the
outcome of the SMTP send; the outer `Except` is whether the function itself
throws an exception into its caller, which it never does. -/
def sendOrderConfirmationEmail (sendMailResult : Except String Unit) :
    Except String Bool :=
  match sendMailResult with
  | .ok _ => .ok true
  | .error _ => .ok false

/-- One line item of the checkout request body (`req.body.items[i]`): the
frontend sends the product id under `product`, plus the client-supplied
name, unit price and quantity. -/
structure OrderItemReq where
  product : Nat
  name : String
  price : ℚ
  quantity : Nat
deriving DecidableEq, Repr

/-- The nested `shippingAddress` object of the checkout request body. -/
structure ShippingAddress where
  firstName : String
  lastName : String
  address : String
  city : String
  state : String
  zipCode : String
  phone : String
  email : String
deriving DecidableEq, Repr

/-- The checkout request body of `POST /orders`. -/
structure CreateOrderRequest where
  shippingAddress : ShippingAddress
  items : List OrderItemReq
  deliveryMethod : String
deriving DecidableEq, Repr

/-- The express-validator chain of the active create-order route: the seven
shipping-address fields and the delivery method must be non-empty and
`items` must be a non-empty array.  No field of any item is validated. -/
def validOrderRequest (req : CreateOrderRequest) : Bool :=
  decide (req.shippingAddress.firstName ≠ "" ∧
    req.shippingAddress.lastName ≠ "" ∧
    req.shippingAddress.address ≠ "" ∧
    req.shippingAddress.city ≠ "" ∧
    req.shippingAddress.state ≠ "" ∧
    req.shippingAddress.zipCode ≠ "" ∧
    req.shippingAddress.phone ≠ "" ∧
    req.deliveryMethod ≠ "" ∧
    req.items ≠ [])

/-- `subtotal`: the route folds `subtotal += item.price * item.quantity`
over the client-supplied items. -/
def orderSubtotal (items : List OrderItemReq) : ℚ :=
  items.foldl (fun acc i => acc + i.price * (i.quantity : ℚ)) 0

/-- The order-line snapshot pushed for each request item:
`{product_id, product_name, product_price, quantity, total_price}` with
`total_price = price * quantity`. -/
def orderItemOf (orderId : Nat) (i : OrderItemReq) : OrderItem :=
  ⟨orderId, i.product, i.name, i.price, i.quantity, i.price * (i.quantity : ℚ)⟩

/-- The order header row inserted (inside `executeTransaction`) by the
active route: status `pending`, `shippingCost = 0` (the delivery-method
tiers are commented out), `taxAmount = 0`, and
`totalAmount = subtotal + shippingCost + taxAmount`. -/
def newOrderRow (db : DB) (userId : Nat) (req : CreateOrderRequest)
    (orderNumber : String) : Order :=
  { id := db.nextOrderId
    order_number := orderNumber
    user_id := userId
    status := .pending
    subtotal := orderSubtotal req.items
    shipping_cost := 0
    tax_amount := 0
    total_amount := orderSubtotal req.items + 0 + 0
    shipping_address := req.shippingAddress.address
    shipping_city := req.shippingAddress.city
    shipping_state := req.shippingAddress.state
    shipping_zip_code := req.shippingAddress.zipCode
    shipping_method := req.deliveryMethod }

/-- One iteration of the per-item loop after the header insert: an
`INSERT INTO order_items` (snapshotting the client-supplied values) and an
unconditional `UPDATE products SET stock = stock - ? WHERE id = ?`.  There
is no stock check before the decrement, and these statements run through
`executeQuery`, outside the transaction that inserted the header. -/
def insertOrderLine (orderId : Nat) (db : DB) (i : OrderItemReq) : DB :=
  { db with
      order_items := db.order_items ++ [orderItemOf orderId i],
      products := (db.products.map
        (fun p => if p.id = i.product then
            { p with stock := p.stock - (i.quantity : Int) }
          else p)) }

/-- All database writes of a validated create-order request: append the
header row (taking the next AUTO_INCREMENT order id as `insertId`), then
run the per-item loop. -/
def insertOrderData (db : DB) (userId : Nat) (req : CreateOrderRequest)
    (orderNumber : String) : DB :=
  req.items.foldl (insertOrderLine db.nextOrderId)
    { db with
        orders := db.orders ++ [newOrderRow db userId req orderNumber],
        nextOrderId := db.nextOrderId + 1 }

/-- Outcome of `POST /orders`.  `created` carries the 201 body fields
(`id`, `orderNumber`, `totalAmount`; the route formats the latter with
`toFixed(2)` for display, modelled here as the raw amount).  `serverError`
is the catch-all 500. -/
inductive CreateOrderResult
  | validationFailed
  | created (orderId : Nat) (orderNumber : String) (totalAmount : ℚ)
  | serverError
deriving DecidableEq, Repr

/-- `POST /orders` (the active, uncommented route): validate, compute the
totals from the client-supplied items, write the header, lines and stock
decrements, await the confirmation email, and answer 201.  The route
performs no stock check and never touches `cart_sessions`/`cart_items`;
`mailResult` is the outcome of the SMTP send inside the email helper, and
the `serverError` branch is the route-level catch (reached only if the
email helper were to throw). -/
def createOrder (db : DB) (userId : Nat) (req : CreateOrderRequest)
    (orderNumber : String) (mailResult : Except String Unit) :
    CreateOrderResult × DB :=
  if validOrderRequest req = true then
    match sendOrderConfirmationEmail mailResult with
    | .ok _ =>
      (.created db.nextOrderId orderNumber (orderSubtotal req.items + 0 + 0),
       insertOrderData db userId req orderNumber)
    | .error _ => (.serverError, insertOrderData db userId req orderNumber)
  else (.validationFailed, db)

/-- Outcome of `POST /orders/:id/cancel`. -/
inductive CancelResult
  | notFound
  | alreadyCancelled
  | cannotCancelDelivered
  | cancelled
deriving DecidableEq, Repr

/-- One iteration of the stock-restore loop of the cancel route:
`UPDATE products SET stock = stock + ? WHERE id = ?`. -/
def restoreStock (db : DB) (l : OrderItem) : DB :=
  { db with products := (db.products.map
      (fun p => if p.id = l.product_id then
          { p with stock := p.stock + (l.quantity : Int) }
        else p)) }

/-- `POST /orders/:id/cancel`: find the caller's order, reject `cancelled`
and `delivered`, otherwise set the status to `cancelled` and add each order
line's quantity back onto its product's stock. -/
def cancelOrder (db : DB) (userId : Nat) (orderId : Nat) :
    CancelResult × DB :=
  match db.orders.filter
      (fun o => decide (o.id = orderId ∧ o.user_id = userId)) with
  | [] => (.notFound, db)
  | o :: _ =>
    if o.status = .cancelled then (.alreadyCancelled, db)
    else if o.status = .delivered then (.cannotCancelDelivered, db)
    else
      (.cancelled,
       ((db.order_items.filter (fun l => decide (l.order_id = orderId))).foldl
         restoreStock
         { db with orders := (db.orders.map
             (fun x => if x.id = orderId then { x with status := .cancelled }
               else x)) }))

/-! ## General lemmas about the order-creation write loop -/

theorem insertLines_orders (items : List OrderItemReq) (oid : Nat) (db : DB) :
    (items.foldl (insertOrderLine oid) db).orders = db.orders := by
  induction items generalizing db with
  | nil => rfl
  | cons i is ih => simp [List.foldl_cons, ih, insertOrderLine]

theorem insertLines_cart_sessions (items : List OrderItemReq) (oid : Nat)
    (db : DB) :
    (items.foldl (insertOrderLine oid) db).cart_sessions = db.cart_sessions := by
  induction items generalizing db with
  | nil => rfl
  | cons i is ih => simp [List.foldl_cons, ih, insertOrderLine]

theorem insertLines_cart_items (items : List OrderItemReq) (oid : Nat)
    (db : DB) :
    (items.foldl (insertOrderLine oid) db).cart_items = db.cart_items := by
  induction items generalizing db with
  | nil => rfl
  | cons i is ih => simp [List.foldl_cons, ih, insertOrderLine]

theorem insertLines_order_items (items : List OrderItemReq) (oid : Nat)
    (db : DB) :
    (items.foldl (insertOrderLine oid) db).order_items
      = db.order_items ++ items.map (orderItemOf oid) := by
  induction items generalizing db with
  | nil => simp
  | cons i is ih => simp [List.foldl_cons, ih, insertOrderLine]

theorem foldl_add_mul (items : List OrderItemReq) (a : ℚ) :
    items.foldl (fun acc i => acc + i.price * (i.quantity : ℚ)) a
      = a + (items.map (fun i => i.price * (i.quantity : ℚ))).sum := by
  induction items generalizing a with
  | nil => simp
  | cons i is ih => simp [List.foldl_cons, ih, add_assoc]

theorem orderSubtotal_eq_sum (items : List OrderItemReq) :
    orderSubtotal items
      = (items.map (fun i => i.price * (i.quantity : ℚ))).sum := by
  simpa using foldl_add_mul items 0

theorem createOrder_snd_of_valid (db : DB) (userId : Nat)
    (req : CreateOrderRequest) (orderNumber : String)
    (mailResult : Except String Unit) (hv : validOrderRequest req = true) :
    (createOrder db userId req orderNumber mailResult).snd
      = insertOrderData db userId req orderNumber := by
  cases mailResult <;> simp [createOrder, hv, sendOrderConfirmationEmail]

/-! ## C1 -/

/-- Database for the C1 evaluation: one active product with stock 3. -/
def c1DB : DB :=
  { products := [⟨1, "Widget", 10, 3, true⟩]
    cart_sessions := []
    cart_items := []
    orders := []
    order_items := []
    nextCartItemId := 1
    nextOrderId := 1 }

/-- Checkout request for the C1 evaluation: 5 units of the product whose
stock is 3. -/
def c1Req : CreateOrderRequest :=
  { shippingAddress :=
      ⟨"Ann", "Lee", "1 Road", "Town", "TS", "00001", "555", "a@b.c"⟩
    items := [⟨1, "Widget", 10, 5⟩]
    deliveryMethod := "standard" }

/-- C1: the specified behaviour — that a stock decrement taking stock
negative fails the whole operation with InsufficientStock and persists
nothing — does not hold on the code.  Evaluating the active create-order
route on an order of 5 units of a product with stock 3 shows the request
succeeds with 201, the header and the order line are persisted, and the
product's stock is driven to -2; no stock check exists on this path and
only the header insert runs inside the transaction. -/
theorem c1_createOrder_skips_stock_check :
    (createOrder c1DB 7 c1Req "ORD-1-001" (.ok ())).fst
        = .created 1 "ORD-1-001" 50 ∧
    ((createOrder c1DB 7 c1Req "ORD-1-001" (.ok ())).snd.products.map
        Product.stock) = [-2] ∧
    (createOrder c1DB 7 c1Req "ORD-1-001" (.ok ())).snd.order_items
        = [⟨1, 1, "Widget", 10, 5, 50⟩] ∧
    ((createOrder c1DB 7 c1Req "ORD-1-001" (.ok ())).snd.orders.map
        Order.status) = [.pending] := by
  refine ⟨?_, ?_, ?_, ?_⟩ <;>
  · norm_num [createOrder, c1DB, c1Req, validOrderRequest,
      sendOrderConfirmationEmail, insertOrderData, insertOrderLine,
      newOrderRow, orderSubtotal, orderItemOf, List.foldl]
    rw [if_pos (by decide)]
    try rfl

/-! ## C2 -/

/-- C2: for every validated checkout, the persisted order header satisfies
`total_amount = subtotal + shipping_cost + tax_amount` exactly, its
subtotal is the sum of `unitPrice * quantity` over the submitted items, and
every persisted order line has `total_price = product_price * quantity`. -/
theorem c2_total_integrity (db : DB) (userId : Nat) (req : CreateOrderRequest)
    (orderNumber : String) (mailResult : Except String Unit)
    (hv : validOrderRequest req = true) :
    ∃ o : Order,
      (createOrder db userId req orderNumber mailResult).snd.orders
          = db.orders ++ [o] ∧
      o.total_amount = o.subtotal + o.shipping_cost + o.tax_amount ∧
      o.subtotal = (req.items.map (fun i => i.price * (i.quantity : ℚ))).sum ∧
      (createOrder db userId req orderNumber mailResult).snd.order_items
          = db.order_items ++ req.items.map (orderItemOf db.nextOrderId) ∧
      ∀ l ∈ req.items.map (orderItemOf db.nextOrderId),
        l.total_price = l.product_price * (l.quantity : ℚ) := by
  refine ⟨newOrderRow db userId req orderNumber, ?_, ?_, ?_, ?_, ?_⟩
  · rw [createOrder_snd_of_valid db userId req orderNumber mailResult hv,
      insertOrderData, insertLines_orders]
  · rfl
  · simpa [newOrderRow] using orderSubtotal_eq_sum req.items
  · rw [createOrder_snd_of_valid db userId req orderNumber mailResult hv,
      insertOrderData, insertLines_order_items]
  · intro l hl
    obtain ⟨i, _, rfl⟩ := List.mem_map.mp hl
    rfl

/-- Database for the C2 witness: empty store state. -/
def c2DB : DB :=
  { products := [⟨1, "Widget", 10, 9, true⟩]
    cart_sessions := []
    cart_items := []
    orders := []
    order_items := []
    nextCartItemId := 1
    nextOrderId := 1 }

/-- Checkout request for the C2 witness: two line items. -/
def c2Req : CreateOrderRequest :=
  { shippingAddress :=
      ⟨"Bo", "Kim", "2 Ave", "City", "CS", "00002", "556", "b@c.d"⟩
    items := [⟨1, "Widget", 10, 2⟩, ⟨2, "Gadget", 3, 4⟩]
    deliveryMethod := "standard" }

/-- C2 witness: the totals identity instantiated on a concrete checkout. -/
theorem c2_total_integrity_witness :
    ∃ o : Order,
      (createOrder c2DB 7 c2Req "ORD-2" (.ok ())).snd.orders
          = c2DB.orders ++ [o] ∧
      o.total_amount = o.subtotal + o.shipping_cost + o.tax_amount ∧
      o.subtotal
          = (c2Req.items.map (fun i => i.price * (i.quantity : ℚ))).sum ∧
      (createOrder c2DB 7 c2Req "ORD-2" (.ok ())).snd.order_items
          = c2DB.order_items ++ c2Req.items.map (orderItemOf c2DB.nextOrderId) ∧
      ∀ l ∈ c2Req.items.map (orderItemOf c2DB.nextOrderId),
        l.total_price = l.product_price * (l.quantity : ℚ) :=
  c2_total_integrity c2DB 7 c2Req "ORD-2" (.ok ()) (by decide)

/-! ## C10 -/

/-- C10: for every validated checkout — whatever the submitted delivery
method — the persisted order has `shipping_cost = 0` and `tax_amount = 0`
(the delivery-method tiers and the tax computation are inert in the active
route), hence `total_amount = subtotal`. -/
theorem c10_shipping_and_tax_always_zero (db : DB) (userId : Nat)
    (req : CreateOrderRequest) (orderNumber : String)
    (mailResult : Except String Unit) (hv : validOrderRequest req = true) :
    ∃ o : Order,
      (createOrder db userId req orderNumber mailResult).snd.orders
          = db.orders ++ [o] ∧
      o.shipping_cost = 0 ∧ o.tax_amount = 0 ∧
      o.total_amount = o.subtotal := by
  refine ⟨newOrderRow db userId req orderNumber, ?_, rfl, rfl, ?_⟩
  · rw [createOrder_snd_of_valid db userId req orderNumber mailResult hv,
      insertOrderData, insertLines_orders]
  · simp [newOrderRow]

/-- Checkout request for the C10 witness: the delivery method is
`express`, which the commented-out tier code would have priced at 9.99. -/
def c10Req : CreateOrderRequest :=
  { shippingAddress :=
      ⟨"Cy", "Roe", "3 Blvd", "Ville", "VS", "00003", "557", "c@d.e"⟩
    items := [⟨1, "Widget", 10, 2⟩]
    deliveryMethod := "express" }

/-- C10 witness: an express-delivery checkout still gets zero shipping and
tax. -/
theorem c10_shipping_and_tax_always_zero_witness :
    ∃ o : Order,
      (createOrder c2DB 7 c10Req "ORD-10" (.ok ())).snd.orders
          = c2DB.orders ++ [o] ∧
      o.shipping_cost = 0 ∧ o.tax_amount = 0 ∧
      o.total_amount = o.subtotal :=
  c10_shipping_and_tax_always_zero c2DB 7 c10Req "ORD-10" (.ok ()) (by decide)

/-! ## C7 -/

/-- C7: order creation is completely insensitive to the outcome of the
confirmation-email send — the email helper catches every send failure
internally and returns false, so a failed send yields the same response
(201 on a validated request, with the same database writes) as a
successful one; the route's catch-all 500 is never reached on the email
path. -/
theorem c7_email_failure_never_fails_order (db : DB) (userId : Nat)
    (req : CreateOrderRequest) (orderNumber : String)
    (m1 m2 : Except String Unit) :
    createOrder db userId req orderNumber m1
        = createOrder db userId req orderNumber m2 ∧
    (validOrderRequest req = true →
      (createOrder db userId req orderNumber m1).fst
        = .created db.nextOrderId orderNumber
            (orderSubtotal req.items + 0 + 0)) := by
  constructor
  · cases m1 <;> cases m2 <;>
      simp [createOrder, sendOrderConfirmationEmail]
  · intro hv
    cases m1 <;> simp [createOrder, hv, sendOrderConfirmationEmail]

/-- C7 witness: on a concrete checkout, an SMTP failure produces exactly
the same outcome as a successful send, and the response is the 201. -/
theorem c7_email_failure_never_fails_order_witness :
    createOrder c2DB 7 c2Req "ORD-7" (.error "smtp down")
        = createOrder c2DB 7 c2Req "ORD-7" (.ok ()) ∧
    (createOrder c2DB 7 c2Req "ORD-7" (.error "smtp down")).fst
        = .created c2DB.nextOrderId "ORD-7"
            (orderSubtotal c2Req.items + 0 + 0) :=
  ⟨(c7_email_failure_never_fails_order c2DB 7 c2Req "ORD-7"
      (.error "smtp down") (.ok ())).1,
   (c7_email_failure_never_fails_order c2DB 7 c2Req "ORD-7"
      (.error "smtp down") (.ok ())).2 (by decide)⟩

/-! ## C8 -/

/-- Database for the C8 counterexample: the caller's cart session and one
cart line exist before checkout. -/
def c8DB : DB :=
  { products := [⟨1, "Widget", 10, 9, true⟩]
    cart_sessions := [⟨"sess-1", some 7⟩]
    cart_items := [⟨1, "sess-1", 1, 2⟩]
    orders := []
    order_items := []
    nextCartItemId := 2
    nextOrderId := 1 }

/-- Checkout request for the C8 counterexample. -/
def c8Req : CreateOrderRequest :=
  { shippingAddress :=
      ⟨"Di", "Poe", "4 Way", "Burg", "BS", "00004", "558", "d@e.f"⟩
    items := [⟨1, "Widget", 10, 2⟩]
    deliveryMethod := "standard" }

/-- C8 counterexample: a concrete checkout succeeds with 201 yet the
caller's cart session and its cart line are still present afterwards —
the cart-clearing statements of the order route are commented out. -/
theorem c8_checkout_keeps_cart_counterexample :
    (createOrder c8DB 7 c8Req "ORD-8" (.ok ())).fst
        = .created 1 "ORD-8" 20 ∧
    (createOrder c8DB 7 c8Req "ORD-8" (.ok ())).snd.cart_sessions
        = [⟨"sess-1", some 7⟩] ∧
    (createOrder c8DB 7 c8Req "ORD-8" (.ok ())).snd.cart_items
        = [⟨1, "sess-1", 1, 2⟩] := by
  refine ⟨?_, ?_, ?_⟩ <;>
  · norm_num [createOrder, c8DB, c8Req, validOrderRequest,
      sendOrderConfirmationEmail, insertOrderData, insertOrderLine,
      newOrderRow, orderSubtotal, orderItemOf, List.foldl]
    rw [if_pos (by decide)]
    try rfl

/-- C8 amended: after any call to the active create-order route —
successful or not — the caller's cart session and cart lines are left
exactly as they were; the route performs no cart clearing at all. -/
theorem c8_checkout_never_touches_cart (db : DB) (userId : Nat)
    (req : CreateOrderRequest) (orderNumber : String)
    (mailResult : Except String Unit) :
    (createOrder db userId req orderNumber mailResult).snd.cart_sessions
        = db.cart_sessions ∧
    (createOrder db userId req orderNumber mailResult).snd.cart_items
        = db.cart_items := by
  by_cases hv : validOrderRequest req = true
  · rw [createOrder_snd_of_valid db userId req orderNumber mailResult hv,
      insertOrderData]
    exact ⟨insertLines_cart_sessions _ _ _, insertLines_cart_items _ _ _⟩
  · simp [createOrder, hv]

/-! ## Lemmas about the cancel route's stock-restore loop -/

theorem restockAll_orders (items : List OrderItem) (db : DB) :
    (items.foldl restoreStock db).orders = db.orders := by
  induction items generalizing db with
  | nil => rfl
  | cons l ls ih => simp [List.foldl_cons, ih, restoreStock]

theorem restockAll_order_items (items : List OrderItem) (db : DB) :
    (items.foldl restoreStock db).order_items = db.order_items := by
  induction items generalizing db with
  | nil => rfl
  | cons l ls ih => simp [List.foldl_cons, ih, restoreStock]

theorem restockAll_products (items : List OrderItem) (db : DB) :
    (items.foldl restoreStock db).products
      = db.products.map (fun p =>
          { p with stock := p.stock +
              ((items.filter (fun l => decide (l.product_id = p.id))).map
                (fun l => (l.quantity : Int))).sum }) := by
  induction items generalizing db with
  | nil =>
    simp only [List.foldl_nil, List.filter_nil, List.map_nil, List.sum_nil,
      add_zero]
    exact (List.map_id db.products).symm
  | cons l ls ih =>
    rw [List.foldl_cons, ih]
    simp only [restoreStock, List.map_map]
    refine List.map_congr_left (fun p _ => ?_)
    by_cases h : p.id = l.product_id
    · simp [Function.comp, h, List.filter_cons, add_assoc]
    · have h2 : ¬ l.product_id = p.id := fun hc => h hc.symm
      simp [Function.comp, h, h2, List.filter_cons]

/-! ## C3 -/

/-- C3: cancelling an order found for the caller fails with the
invalid-transition errors on `cancelled` and `delivered` without touching
the database; on any other status (`pending`, `processing`, `shipped`) it
succeeds, marks the order `cancelled`, and adds each order line's quantity
back onto the matching product's stock exactly once (each product gains
precisely the sum of the quantities of that order's lines for it). -/
theorem c3_cancel_terminality (db : DB) (uid oid : Nat) (o : Order)
    (tl : List Order)
    (hfind : db.orders.filter
        (fun x => decide (x.id = oid ∧ x.user_id = uid)) = o :: tl) :
    (o.status = .cancelled →
      cancelOrder db uid oid = (.alreadyCancelled, db)) ∧
    (o.status = .delivered →
      cancelOrder db uid oid = (.cannotCancelDelivered, db)) ∧
    (o.status ≠ .cancelled → o.status ≠ .delivered →
      (cancelOrder db uid oid).fst = .cancelled ∧
      (cancelOrder db uid oid).snd.orders
          = db.orders.map (fun x => if x.id = oid then
              { x with status := OrderStatus.cancelled } else x) ∧
      (cancelOrder db uid oid).snd.products
          = db.products.map (fun p =>
              { p with stock := p.stock +
                  (((db.order_items.filter
                      (fun l => decide (l.order_id = oid))).filter
                      (fun l => decide (l.product_id = p.id))).map
                    (fun l => (l.quantity : Int))).sum }) ∧
      (cancelOrder db uid oid).snd.order_items = db.order_items) := by
  refine ⟨fun h => ?_, fun h => ?_, fun h1 h2 => ?_⟩
  · unfold cancelOrder
    rw [hfind]
    simp [h]
  · unfold cancelOrder
    rw [hfind]
    have hnc : o.status ≠ OrderStatus.cancelled := by
      rw [h]
      decide
    simp [h, hnc]
  · have hred : cancelOrder db uid oid
        = (.cancelled,
           ((db.order_items.filter (fun l => decide (l.order_id = oid))).foldl
             restoreStock
             { db with orders := (db.orders.map
                 (fun x => if x.id = oid then
                     { x with status := OrderStatus.cancelled } else x)) })) := by
      unfold cancelOrder
      rw [hfind]
      simp [h1, h2]
    rw [hred]
    exact ⟨rfl,
      by rw [restockAll_orders],
      by rw [restockAll_products],
      by rw [restockAll_order_items]⟩

/-- Database for the C3 witness: one pending order for user 7 with two
lines over two products, plus an already-delivered order. -/
def c3DB : DB :=
  { products := [⟨1, "Widget", 10, 6, true⟩, ⟨2, "Gadget", 3, 1, true⟩]
    cart_sessions := []
    cart_items := []
    orders :=
      [⟨1, "ORD-A", 7, .pending, 26, 0, 0, 26, "1 Road", "Town", "TS",
        "00001", "standard"⟩,
       ⟨2, "ORD-B", 7, .delivered, 10, 0, 0, 10, "1 Road", "Town", "TS",
        "00001", "standard"⟩]
    order_items :=
      [⟨1, 1, "Widget", 10, 2, 20⟩, ⟨1, 2, "Gadget", 3, 2, 6⟩,
       ⟨2, 1, "Widget", 10, 1, 10⟩]
    nextCartItemId := 1
    nextOrderId := 3 }

/-- C3 witness: cancelling the pending order returns success, marks it
cancelled, and restores stock 6 to 8 and 1 to 3; cancelling the delivered
order fails without changing anything. -/
theorem c3_cancel_terminality_witness :
    (cancelOrder c3DB 7 1).fst = .cancelled ∧
    ((cancelOrder c3DB 7 1).snd.orders.map Order.status)
        = [.cancelled, .delivered] ∧
    ((cancelOrder c3DB 7 1).snd.products.map Product.stock) = [8, 3] ∧
    cancelOrder c3DB 7 2 = (.cannotCancelDelivered, c3DB) := by
  have hmain := (c3_cancel_terminality c3DB 7 1
    ⟨1, "ORD-A", 7, .pending, 26, 0, 0, 26, "1 Road", "Town", "TS",
      "00001", "standard"⟩ [] (by decide)).2.2
      (by decide) (by decide)
  have hdeliv := (c3_cancel_terminality c3DB 7 2
    ⟨2, "ORD-B", 7, .delivered, 10, 0, 0, 10, "1 Road", "Town", "TS",
      "00001", "standard"⟩ [] (by decide)).2.1 (by decide)
  refine ⟨hmain.1, ?_, ?_, hdeliv⟩
  · rw [hmain.2.1]
    rfl
  · rw [hmain.2.2.1]
    rfl

/-! ## C9 -/

theorem addItem_guest_insert (db : DB) (pid q : Nat) (f : String)
    (P : Product) (ptl : List Product)
    (hq : 1 ≤ q) (hpid : 1 ≤ pid)
    (hprod : db.products.filter
        (fun p => decide (p.id = pid ∧ p.active = true)) = P :: ptl)
    (hs : (q : Int) ≤ P.stock)
    (hfresh : ∀ ci ∈ db.cart_items, ci.session_id ≠ f) :
    addItem db none pid q f
      = (.ok (some f),
         { db with
             cart_sessions := db.cart_sessions ++ [⟨f, none⟩],
             cart_items := db.cart_items ++ [⟨db.nextCartItemId, f, pid, q⟩],
             nextCartItemId := db.nextCartItemId + 1 }) := by
  have hv : ¬ (q < 1 ∨ pid < 1) :=
    not_or.mpr ⟨not_lt.mpr hq, not_lt.mpr hpid⟩
  have hnil : db.cart_items.filter
      (fun ci => decide (ci.session_id = f ∧ ci.product_id = pid)) = [] := by
    rw [List.filter_eq_nil_iff]
    intro ci hci
    simp only [decide_eq_true_eq, not_and]
    intro hA _
    exact hfresh ci hci hA
  unfold addItem
  rw [if_neg hv]
  simp only [hprod]
  rw [if_neg (not_lt.mpr hs)]
  simp only [getOrCreateCartSession]
  simp only [hnil]

/-- C9: an unauthenticated add-to-cart never reads or reuses a supplied
session token — it always creates and returns a brand-new session.  Two
successive anonymous adds of the same product land in two distinct
sessions, and the second add's stock check sees an empty (fresh) cart, so
the cumulative-quantity check never applies across guest requests: both
adds succeed whenever each quantity alone is within stock. -/
theorem c9_guest_adds_use_fresh_sessions (db : DB) (pid q1 q2 : Nat)
    (f1 f2 : String) (P : Product) (ptl : List Product)
    (hq1 : 1 ≤ q1) (hq2 : 1 ≤ q2) (hpid : 1 ≤ pid)
    (hprod : db.products.filter
        (fun p => decide (p.id = pid ∧ p.active = true)) = P :: ptl)
    (hs1 : (q1 : Int) ≤ P.stock) (hs2 : (q2 : Int) ≤ P.stock)
    (hf12 : f1 ≠ f2)
    (hfresh1 : ∀ ci ∈ db.cart_items, ci.session_id ≠ f1)
    (hfresh2 : ∀ ci ∈ db.cart_items, ci.session_id ≠ f2) :
    (addItem db none pid q1 f1).fst = .ok (some f1) ∧
    (addItem (addItem db none pid q1 f1).snd none pid q2 f2).fst
        = .ok (some f2) ∧
    (addItem (addItem db none pid q1 f1).snd none pid q2 f2).snd.cart_sessions
        = db.cart_sessions ++ [⟨f1, none⟩, ⟨f2, none⟩] ∧
    (addItem (addItem db none pid q1 f1).snd none pid q2 f2).snd.cart_items
        = db.cart_items ++ [⟨db.nextCartItemId, f1, pid, q1⟩,
            ⟨db.nextCartItemId + 1, f2, pid, q2⟩] := by
  have h1 := addItem_guest_insert db pid q1 f1 P ptl hq1 hpid hprod hs1 hfresh1
  have hfresh2b : ∀ ci ∈ (addItem db none pid q1 f1).snd.cart_items,
      ci.session_id ≠ f2 := by
    rw [h1]
    intro ci hci
    rcases List.mem_append.mp hci with hmem | hmem
    · exact hfresh2 ci hmem
    · rcases List.mem_singleton.mp hmem with rfl
      exact hf12
  have h2 := addItem_guest_insert (addItem db none pid q1 f1).snd pid q2 f2
    P ptl hq2 hpid (by rw [h1]; exact hprod) hs2 hfresh2b
  refine ⟨by rw [h1], by rw [h2], ?_, ?_⟩
  · rw [h2, h1]
    simp
  · rw [h2, h1]
    simp

/-- Database for the C9 witness: one active product with stock 5 and an
empty cart state. -/
def c9DB : DB :=
  { products := [⟨1, "Widget", 10, 5, true⟩]
    cart_sessions := []
    cart_items := []
    orders := []
    order_items := []
    nextCartItemId := 1
    nextOrderId := 1 }

/-- C9 witness: two anonymous adds of 4 units each against stock 5 both
succeed — their combined quantity 8 exceeds stock, but each lands in its
own fresh session so no cumulative check fires. -/
theorem c9_guest_adds_use_fresh_sessions_witness :
    (addItem c9DB none 1 4 "guest-a").fst = .ok (some "guest-a") ∧
    (addItem (addItem c9DB none 1 4 "guest-a").snd none 1 4 "guest-b").fst
        = .ok (some "guest-b") ∧
    (addItem (addItem c9DB none 1 4 "guest-a").snd none 1 4
        "guest-b").snd.cart_sessions
        = [⟨"guest-a", none⟩, ⟨"guest-b", none⟩] ∧
    (addItem (addItem c9DB none 1 4 "guest-a").snd none 1 4
        "guest-b").snd.cart_items
        = [⟨1, "guest-a", 1, 4⟩, ⟨2, "guest-b", 1, 4⟩] := by
  have h := c9_guest_adds_use_fresh_sessions c9DB 1 4 4 "guest-a" "guest-b"
    ⟨1, "Widget", 10, 5, true⟩ [] (by decide) (by decide) (by decide)
    (by decide) (by decide) (by decide) (by decide)
    (by intro ci hci; cases hci) (by intro ci hci; cases hci)
  exact ⟨h.1, h.2.1, by rw [h.2.2.1]; rfl, by rw [h.2.2.2]; rfl⟩

/-! ## C6 -/

/-- Database for the C6 counterexample: an anonymous cart session holding
one line, owned by whoever holds the token `victim-session`. -/
def c6DB : DB :=
  { products := [⟨1, "Widget", 10, 10, true⟩]
    cart_sessions := [⟨"victim-session", none⟩]
    cart_items := [⟨1, "victim-session", 1, 1⟩]
    orders := []
    order_items := []
    nextCartItemId := 2
    nextOrderId := 1 }

/-- C6 counterexample: an unauthenticated caller who holds no session
token at all mutates (and deletes) a cart line belonging to the session
`victim-session` and succeeds — the update and remove routes run their
ownership check only for authenticated callers, and never read a session
token from anonymous callers. -/
theorem c6_anonymous_mutation_counterexample :
    (updateItem c6DB none 1 5).fst = .updated ∧
    (updateItem c6DB none 1 5).snd.cart_items
        = [⟨1, "victim-session", 1, 5⟩] ∧
    (removeItem c6DB none 1).fst = .removed ∧
    (removeItem c6DB none 1).snd.cart_items = [] := by
  refine ⟨?_, ?_, ?_, ?_⟩ <;> rfl

theorem updateItemApply_ne_forbidden (db : DB) (itemId q : Nat) (st : Int) :
    (updateItemApply db itemId q st).fst ≠ CartUpdateResult.forbidden := by
  unfold updateItemApply
  split
  · simp
  · split <;> simp

/-- C6 amended: the ownership check runs only for authenticated callers —
when the caller is authenticated and the target line's session is not
bound to that user, update and remove fail with Forbidden and change
nothing; an anonymous caller is never checked (the routes read no session
token from guests), so anonymous mutations can never be Forbidden. -/
theorem c6_ownership_check_only_when_authenticated (db : DB)
    (itemId q u : Nat) :
    (∀ ci ctl, db.cart_items.filter (fun x => decide (x.id = itemId))
        = ci :: ctl →
      ∀ p ptl, db.products.filter (fun x => decide (x.id = ci.product_id))
          = p :: ptl →
      db.cart_sessions.filter (fun s =>
          decide (s.session_id = ci.session_id ∧ s.user_id = some u)) = [] →
      updateItem db (some u) itemId q = (.forbidden, db)) ∧
    (∀ ci ctl, db.cart_items.filter (fun x => decide (x.id = itemId))
        = ci :: ctl →
      db.cart_sessions.filter (fun s =>
          decide (s.session_id = ci.session_id ∧ s.user_id = some u)) = [] →
      removeItem db (some u) itemId = (.forbidden, db)) ∧
    (updateItem db none itemId q).fst ≠ .forbidden ∧
    (removeItem db none itemId).fst ≠ .forbidden := by
  refine ⟨?_, ?_, ?_, ?_⟩
  · intro ci ctl hci p ptl hp hsess
    unfold updateItem
    simp only [hci, hp, hsess]
    simp
  · intro ci ctl hci hsess
    unfold removeItem
    simp only [hci, hsess]
    simp
  · unfold updateItem
    split
    · simp
    · split
      · simp
      · exact updateItemApply_ne_forbidden _ _ _ _
  · unfold removeItem
    split
    · simp
    · simp

/-- C6 amended witness: user 9 is Forbidden from touching the anonymous
victim line, while the anonymous caller is never Forbidden. -/
theorem c6_ownership_check_only_when_authenticated_witness :
    updateItem c6DB (some 9) 1 5 = (.forbidden, c6DB) ∧
    removeItem c6DB (some 9) 1 = (.forbidden, c6DB) ∧
    (updateItem c6DB none 1 5).fst ≠ .forbidden ∧
    (removeItem c6DB none 1).fst ≠ .forbidden := by
  have h := c6_ownership_check_only_when_authenticated c6DB 1 5 9
  exact ⟨h.1 ⟨1, "victim-session", 1, 1⟩ [] (by rfl)
      ⟨1, "Widget", 10, 10, true⟩ [] (by rfl) (by rfl),
    h.2.1 ⟨1, "victim-session", 1, 1⟩ [] (by rfl) (by rfl),
    h.2.2.1, h.2.2.2⟩

/-! ## C5 helper lemmas -/

theorem map_ite_id (l : List CartItem) (n : Nat) (f : CartItem → CartItem)
    (h : ∀ x ∈ l, x.id ≠ n) :
    l.map (fun ci => if ci.id = n then f ci else ci) = l := by
  induction l with
  | nil => rfl
  | cons x xs ih =>
    simp only [List.map_cons, if_neg (h x (List.mem_cons_self x xs))]
    rw [ih (fun y hy => h y (List.mem_cons_of_mem x hy))]

theorem filter_id_eq_nil (l : List CartItem) (n : Nat)
    (h : ∀ x ∈ l, x.id < n) :
    l.filter (fun ci => decide (ci.id = n)) = [] :=
  List.filter_eq_nil_iff.mpr
    (fun x hx => by simp [Nat.ne_of_lt (h x hx)])

theorem filter_ne_id_eq_self (l : List CartItem) (n : Nat)
    (h : ∀ x ∈ l, x.id < n) :
    l.filter (fun ci => decide (ci.id ≠ n)) = l :=
  List.filter_eq_self.mpr
    (fun x hx => by simp [Nat.ne_of_lt (h x hx)])

theorem addItem_user_insert (db : DB) (u pid q : Nat) (f : String)
    (P : Product) (ptl : List Product) (s0 : CartSession)
    (stl : List CartSession)
    (hq : 1 ≤ q) (hpid : 1 ≤ pid)
    (hsess : db.cart_sessions.filter
        (fun x => decide (x.user_id = some u)) = s0 :: stl)
    (hP1 : db.products.filter
        (fun p => decide (p.id = pid ∧ p.active = true)) = P :: ptl)
    (hs : (q : Int) ≤ P.stock)
    (hnoline : db.cart_items.filter (fun ci =>
        decide (ci.session_id = s0.session_id ∧ ci.product_id = pid)) = []) :
    addItem db (some u) pid q f
      = (.ok none,
         { db with
             cart_items := db.cart_items ++
               [⟨db.nextCartItemId, s0.session_id, pid, q⟩],
             nextCartItemId := db.nextCartItemId + 1 }) := by
  have hv : ¬ (q < 1 ∨ pid < 1) :=
    not_or.mpr ⟨not_lt.mpr hq, not_lt.mpr hpid⟩
  unfold addItem
  rw [if_neg hv]
  simp only [hP1]
  rw [if_neg (not_lt.mpr hs)]
  simp only [getOrCreateCartSession, resolveUserSession, hsess]
  simp only [hnoline]

theorem addItem_user_update (db : DB) (u pid q : Nat) (f : String)
    (P : Product) (ptl : List Product) (s0 : CartSession)
    (stl : List CartSession) (e : CartItem) (etl : List CartItem)
    (hq : 1 ≤ q) (hpid : 1 ≤ pid)
    (hsess : db.cart_sessions.filter
        (fun x => decide (x.user_id = some u)) = s0 :: stl)
    (hP1 : db.products.filter
        (fun p => decide (p.id = pid ∧ p.active = true)) = P :: ptl)
    (hitems : db.cart_items.filter (fun ci =>
        decide (ci.session_id = s0.session_id ∧ ci.product_id = pid))
        = e :: etl)
    (hs : ((e.quantity + q : Nat) : Int) ≤ P.stock) :
    addItem db (some u) pid q f
      = (.ok none,
         { db with cart_items := (db.cart_items.map
             (fun ci => if ci.id = e.id then
                 { ci with quantity := e.quantity + q }
               else ci)) }) := by
  have hv : ¬ (q < 1 ∨ pid < 1) :=
    not_or.mpr ⟨not_lt.mpr hq, not_lt.mpr hpid⟩
  have hq1 : ¬ (P.stock < (q : Int)) := by omega
  have hq2 : ¬ (P.stock < ((e.quantity + q : Nat) : Int)) := by omega
  unfold addItem
  rw [if_neg hv]
  simp only [hP1]
  rw [if_neg hq1]
  simp only [getOrCreateCartSession, resolveUserSession, hsess]
  simp only [hitems]
  rw [if_neg hq2]

theorem filter_line_append (l : List CartItem) (s : String) (pid : Nat)
    (it : CartItem)
    (hl : l.filter (fun ci =>
        decide (ci.session_id = s ∧ ci.product_id = pid)) = [])
    (hs : it.session_id = s) (hp : it.product_id = pid) :
    (l ++ [it]).filter (fun ci =>
        decide (ci.session_id = s ∧ ci.product_id = pid)) = [it] := by
  rw [List.filter_append, hl, List.nil_append, List.filter_cons,
    if_pos (decide_eq_true ⟨hs, hp⟩)]
  rfl

theorem filter_id_append_singleton (l : List CartItem) (n : Nat)
    (it : CartItem) (h : ∀ x ∈ l, x.id < n) (hit : it.id = n) :
    (l ++ [it]).filter (fun ci => decide (ci.id = n)) = [it] := by
  rw [List.filter_append, filter_id_eq_nil l n h, List.nil_append,
    List.filter_cons, if_pos (decide_eq_true hit)]
  rfl

theorem filter_ne_id_append_singleton (l : List CartItem) (n : Nat)
    (it : CartItem) (h : ∀ x ∈ l, x.id < n) (hit : it.id = n) :
    (l ++ [it]).filter (fun ci => decide (ci.id ≠ n)) = l := by
  rw [List.filter_append, filter_ne_id_eq_self l n h, List.filter_cons,
    if_neg (by simp [hit]), List.filter_nil, List.append_nil]

theorem updateItem_auth_apply (db : DB) (u itemId q : Nat) (ci : CartItem)
    (ctl : List CartItem) (p : Product) (ptl : List Product)
    (hci : db.cart_items.filter (fun x => decide (x.id = itemId)) = ci :: ctl)
    (hp : db.products.filter (fun x => decide (x.id = ci.product_id))
        = p :: ptl)
    (hown : db.cart_sessions.filter (fun s =>
        decide (s.session_id = ci.session_id ∧ s.user_id = some u)) ≠ []) :
    updateItem db (some u) itemId q = updateItemApply db itemId q p.stock := by
  unfold updateItem
  simp only [hci, hp]
  rw [if_neg hown]

/-! ## C5 -/

/-- C5: within the cart session of an authenticated user, add-to-cart is
additive and update is a replace: adding product P with quantity 2 then
quantity 3 yields exactly one cart line for (session, P) with quantity 5
(the row is updated, not duplicated); updating that line to quantity 1
replaces the quantity with 1; updating it to quantity 0 succeeds as a
removal and deletes the line, restoring the original cart. -/
theorem c5_cart_add_additive_update_replace (db : DB) (u pid : Nat)
    (fA fB : String) (P : Product) (ptl ptl2 : List Product)
    (s0 : CartSession) (stl : List CartSession)
    (hpid : 1 ≤ pid)
    (hsess : db.cart_sessions.filter
        (fun x => decide (x.user_id = some u)) = s0 :: stl)
    (hP1 : db.products.filter
        (fun p => decide (p.id = pid ∧ p.active = true)) = P :: ptl)
    (hP2 : db.products.filter (fun p => decide (p.id = pid)) = P :: ptl2)
    (hstock : (5 : Int) ≤ P.stock)
    (hnoline : db.cart_items.filter (fun ci =>
        decide (ci.session_id = s0.session_id ∧ ci.product_id = pid)) = [])
    (hfresh : ∀ ci ∈ db.cart_items, ci.id < db.nextCartItemId)
    (hown : db.cart_sessions.filter (fun x =>
        decide (x.session_id = s0.session_id ∧ x.user_id = some u)) ≠ []) :
    (addItem db (some u) pid 2 fA).fst = .ok none ∧
    (addItem (addItem db (some u) pid 2 fA).snd (some u) pid 3 fB).fst
        = .ok none ∧
    (addItem (addItem db (some u) pid 2 fA).snd (some u) pid 3
        fB).snd.cart_items
        = db.cart_items ++ [⟨db.nextCartItemId, s0.session_id, pid, 5⟩] ∧
    ((addItem (addItem db (some u) pid 2 fA).snd (some u) pid 3
        fB).snd.cart_items.filter (fun ci =>
        decide (ci.session_id = s0.session_id ∧ ci.product_id = pid)))
        = [⟨db.nextCartItemId, s0.session_id, pid, 5⟩] ∧
    (updateItem (addItem (addItem db (some u) pid 2 fA).snd (some u) pid 3
        fB).snd (some u) db.nextCartItemId 1).fst = .updated ∧
    (updateItem (addItem (addItem db (some u) pid 2 fA).snd (some u) pid 3
        fB).snd (some u) db.nextCartItemId 1).snd.cart_items
        = db.cart_items ++ [⟨db.nextCartItemId, s0.session_id, pid, 1⟩] ∧
    (updateItem (updateItem (addItem (addItem db (some u) pid 2 fA).snd
        (some u) pid 3 fB).snd (some u) db.nextCartItemId 1).snd (some u)
        db.nextCartItemId 0).fst = .removed ∧
    (updateItem (updateItem (addItem (addItem db (some u) pid 2 fA).snd
        (some u) pid 3 fB).snd (some u) db.nextCartItemId 1).snd (some u)
        db.nextCartItemId 0).snd.cart_items = db.cart_items := by
  have hne : ∀ x ∈ db.cart_items, x.id ≠ db.nextCartItemId :=
    fun x hx => Nat.ne_of_lt (hfresh x hx)
  have hA : addItem db (some u) pid 2 fA
      = (.ok none,
         { db with
             cart_items := db.cart_items ++
               [⟨db.nextCartItemId, s0.session_id, pid, 2⟩],
             nextCartItemId := db.nextCartItemId + 1 }) :=
    addItem_user_insert db u pid 2 fA P ptl s0 stl (by omega) hpid hsess hP1
      (show ((2 : Nat) : Int) ≤ P.stock by omega) hnoline
  have h1i : (addItem db (some u) pid 2 fA).snd.cart_items
      = db.cart_items ++ [⟨db.nextCartItemId, s0.session_id, pid, 2⟩] := by
    rw [hA]
  have h1s : (addItem db (some u) pid 2 fA).snd.cart_sessions
      = db.cart_sessions := by
    rw [hA]
  have h1p : (addItem db (some u) pid 2 fA).snd.products = db.products := by
    rw [hA]
  have hsess1 : (addItem db (some u) pid 2 fA).snd.cart_sessions.filter
      (fun x => decide (x.user_id = some u)) = s0 :: stl := by
    rw [h1s]
    exact hsess
  have hP1b : (addItem db (some u) pid 2 fA).snd.products.filter
      (fun p => decide (p.id = pid ∧ p.active = true)) = P :: ptl := by
    rw [h1p]
    exact hP1
  have hitems1 : (addItem db (some u) pid 2 fA).snd.cart_items.filter
      (fun ci => decide (ci.session_id = s0.session_id ∧
        ci.product_id = pid))
      = ⟨db.nextCartItemId, s0.session_id, pid, 2⟩ :: [] := by
    rw [h1i]
    exact filter_line_append db.cart_items s0.session_id pid _ hnoline rfl rfl
  have hB : addItem (addItem db (some u) pid 2 fA).snd (some u) pid 3 fB
      = (.ok none,
         { (addItem db (some u) pid 2 fA).snd with
             cart_items := (((addItem db (some u) pid 2 fA).snd).cart_items.map
               (fun ci => if ci.id = db.nextCartItemId then
                   { ci with quantity := 5 }
                 else ci)) }) :=
    addItem_user_update (addItem db (some u) pid 2 fA).snd u pid 3 fB P ptl
      s0 stl ⟨db.nextCartItemId, s0.session_id, pid, 2⟩ [] (by omega) hpid
      hsess1 hP1b hitems1
      (show ((2 + 3 : Nat) : Int) ≤ P.stock by omega)
  have h2i : (addItem (addItem db (some u) pid 2 fA).snd (some u) pid 3
      fB).snd.cart_items
      = db.cart_items ++ [⟨db.nextCartItemId, s0.session_id, pid, 5⟩] := by
    rw [hB, h1i, List.map_append,
      map_ite_id db.cart_items db.nextCartItemId
        (fun ci => { ci with quantity := 5 }) hne]
    simp
  have h2s : (addItem (addItem db (some u) pid 2 fA).snd (some u) pid 3
      fB).snd.cart_sessions = db.cart_sessions := by
    rw [hB, h1s]
  have h2p : (addItem (addItem db (some u) pid 2 fA).snd (some u) pid 3
      fB).snd.products = db.products := by
    rw [hB, h1p]
  have hP2b : (addItem (addItem db (some u) pid 2 fA).snd (some u) pid 3
      fB).snd.products.filter (fun p => decide (p.id = pid)) = P :: ptl2 := by
    rw [h2p]
    exact hP2
  have hownB : (addItem (addItem db (some u) pid 2 fA).snd (some u) pid 3
      fB).snd.cart_sessions.filter (fun x =>
      decide (x.session_id = s0.session_id ∧ x.user_id = some u)) ≠ [] := by
    rw [h2s]
    exact hown
  have hCitems : (addItem (addItem db (some u) pid 2 fA).snd (some u) pid 3
      fB).snd.cart_items.filter
      (fun x => decide (x.id = db.nextCartItemId))
      = ⟨db.nextCartItemId, s0.session_id, pid, 5⟩ :: [] := by
    rw [h2i]
    exact filter_id_append_singleton db.cart_items db.nextCartItemId _
      hfresh rfl
  have hC : updateItem (addItem (addItem db (some u) pid 2 fA).snd (some u)
      pid 3 fB).snd (some u) db.nextCartItemId 1
      = (.updated,
         { (addItem (addItem db (some u) pid 2 fA).snd (some u) pid 3
             fB).snd with
             cart_items := ((addItem (addItem db (some u) pid 2 fA).snd
               (some u) pid 3 fB).snd.cart_items.map
               (fun ci => if ci.id = db.nextCartItemId then
                   { ci with quantity := 1 }
                 else ci)) }) := by
    rw [updateItem_auth_apply _ u db.nextCartItemId 1
      ⟨db.nextCartItemId, s0.session_id, pid, 5⟩ [] P ptl2 hCitems hP2b hownB]
    unfold updateItemApply
    rw [if_neg one_ne_zero,
      if_neg (show ¬ P.stock < ((1 : Nat) : Int) by omega)]
  have h3i : (updateItem (addItem (addItem db (some u) pid 2 fA).snd (some u)
      pid 3 fB).snd (some u) db.nextCartItemId 1).snd.cart_items
      = db.cart_items ++ [⟨db.nextCartItemId, s0.session_id, pid, 1⟩] := by
    rw [hC, h2i, List.map_append,
      map_ite_id db.cart_items db.nextCartItemId
        (fun ci => { ci with quantity := 1 }) hne]
    simp
  have h3s : (updateItem (addItem (addItem db (some u) pid 2 fA).snd (some u)
      pid 3 fB).snd (some u) db.nextCartItemId 1).snd.cart_sessions
      = db.cart_sessions := by
    rw [hC, h2s]
  have h3p : (updateItem (addItem (addItem db (some u) pid 2 fA).snd (some u)
      pid 3 fB).snd (some u) db.nextCartItemId 1).snd.products
      = db.products := by
    rw [hC, h2p]
  have hP2c : (updateItem (addItem (addItem db (some u) pid 2 fA).snd
      (some u) pid 3 fB).snd (some u) db.nextCartItemId 1).snd.products.filter
      (fun p => decide (p.id = pid)) = P :: ptl2 := by
    rw [h3p]
    exact hP2
  have hownC : (updateItem (addItem (addItem db (some u) pid 2 fA).snd
      (some u) pid 3 fB).snd (some u) db.nextCartItemId
      1).snd.cart_sessions.filter (fun x =>
      decide (x.session_id = s0.session_id ∧ x.user_id = some u)) ≠ [] := by
    rw [h3s]
    exact hown
  have hDitems : (updateItem (addItem (addItem db (some u) pid 2 fA).snd
      (some u) pid 3 fB).snd (some u) db.nextCartItemId 1).snd.cart_items.filter
      (fun x => decide (x.id = db.nextCartItemId))
      = ⟨db.nextCartItemId, s0.session_id, pid, 1⟩ :: [] := by
    rw [h3i]
    exact filter_id_append_singleton db.cart_items db.nextCartItemId _
      hfresh rfl
  have hD : updateItem (updateItem (addItem (addItem db (some u) pid 2
      fA).snd (some u) pid 3 fB).snd (some u) db.nextCartItemId 1).snd
      (some u) db.nextCartItemId 0
      = (.removed,
         { (updateItem (addItem (addItem db (some u) pid 2 fA).snd (some u)
             pid 3 fB).snd (some u) db.nextCartItemId 1).snd with
             cart_items := ((updateItem (addItem (addItem db (some u) pid 2
               fA).snd (some u) pid 3 fB).snd (some u) db.nextCartItemId
               1).snd.cart_items.filter
               (fun ci => decide (ci.id ≠ db.nextCartItemId))) }) := by
    rw [updateItem_auth_apply _ u db.nextCartItemId 0
      ⟨db.nextCartItemId, s0.session_id, pid, 1⟩ [] P ptl2 hDitems hP2c hownC]
    unfold updateItemApply
    rw [if_pos rfl]
  have h4i : (updateItem (updateItem (addItem (addItem db (some u) pid 2
      fA).snd (some u) pid 3 fB).snd (some u) db.nextCartItemId 1).snd
      (some u) db.nextCartItemId 0).snd.cart_items = db.cart_items := by
    rw [hD, h3i]
    exact filter_ne_id_append_singleton db.cart_items db.nextCartItemId _
      hfresh rfl
  refine ⟨by rw [hA], by rw [hB], h2i, ?_, by rw [hC], h3i, by rw [hD], h4i⟩
  rw [h2i]
  exact filter_line_append db.cart_items s0.session_id pid _ hnoline rfl rfl

/-- Database for the C5 witness: user 7 owns session `sess-u`; one active
product with stock 5; empty cart. -/
def c5DB : DB :=
  { products := [⟨1, "Widget", 10, 5, true⟩]
    cart_sessions := [⟨"sess-u", some 7⟩]
    cart_items := []
    orders := []
    order_items := []
    nextCartItemId := 1
    nextOrderId := 1 }

/-- C5 witness: the add 2 / add 3 / update 1 / update 0 scenario run on a
concrete database. -/
theorem c5_cart_add_additive_update_replace_witness :
    (addItem c5DB (some 7) 1 2 "x1").fst = .ok none ∧
    (addItem (addItem c5DB (some 7) 1 2 "x1").snd (some 7) 1 3 "x2").fst
        = .ok none ∧
    (addItem (addItem c5DB (some 7) 1 2 "x1").snd (some 7) 1 3
        "x2").snd.cart_items = [⟨1, "sess-u", 1, 5⟩] ∧
    ((addItem (addItem c5DB (some 7) 1 2 "x1").snd (some 7) 1 3
        "x2").snd.cart_items.filter (fun ci =>
        decide (ci.session_id = "sess-u" ∧ ci.product_id = 1)))
        = [⟨1, "sess-u", 1, 5⟩] ∧
    (updateItem (addItem (addItem c5DB (some 7) 1 2 "x1").snd (some 7) 1 3
        "x2").snd (some 7) 1 1).fst = .updated ∧
    (updateItem (addItem (addItem c5DB (some 7) 1 2 "x1").snd (some 7) 1 3
        "x2").snd (some 7) 1 1).snd.cart_items = [⟨1, "sess-u", 1, 1⟩] ∧
    (updateItem (updateItem (addItem (addItem c5DB (some 7) 1 2 "x1").snd
        (some 7) 1 3 "x2").snd (some 7) 1 1).snd (some 7) 1 0).fst
        = .removed ∧
    (updateItem (updateItem (addItem (addItem c5DB (some 7) 1 2 "x1").snd
        (some 7) 1 3 "x2").snd (some 7) 1 1).snd (some 7) 1 0).snd.cart_items
        = [] :=
  c5_cart_add_additive_update_replace c5DB 7 1 "x1" "x2"
    ⟨1, "Widget", 10, 5, true⟩ [] [] ⟨"sess-u", some 7⟩ []
    (by decide) (by decide) (by decide) (by decide) (by decide) (by decide)
    (by intro ci hci; cases hci) (by decide)

/-! ## C4 -/

theorem mergeOneItem_cart_sessions (usid : String) (db : DB)
    (gi : CartItem) :
    (mergeOneItem usid db gi).cart_sessions = db.cart_sessions := by
  unfold mergeOneItem
  split <;> rfl

theorem mergeGuestItems_cart_sessions (usid : String) (gis : List CartItem)
    (db : DB) :
    (mergeGuestItems usid db gis).cart_sessions = db.cart_sessions := by
  induction gis generalizing db with
  | nil => rfl
  | cons gi gis ih =>
    unfold mergeGuestItems at ih ⊢
    rw [List.foldl_cons, ih, mergeOneItem_cart_sessions]

theorem mergeCartsCore_snd (db : DB) (u : Nat) (g f : String) :
    (mergeCartsCore db u g f).snd
      = deleteGuestSession
          (mergeGuestItems (resolveUserSession db u f).fst
            (resolveUserSession db u f).snd
            ((resolveUserSession db u f).snd.cart_items.filter
              (fun ci => decide (ci.session_id = g)))) g := rfl

theorem mergeCartsCore_self_noop (db1 : DB) (u : Nat) (g f2 : String)
    (ha : ∀ s ∈ db1.cart_sessions, s.session_id ≠ g)
    (hb : ∀ i ∈ db1.cart_items, i.session_id ≠ g)
    (hc : db1.cart_sessions.filter
        (fun s => decide (s.user_id = some u)) ≠ []) :
    mergeCartsCore db1 u g f2 = (.merged, db1) := by
  unfold mergeCartsCore resolveUserSession
  cases hres : db1.cart_sessions.filter
      (fun s => decide (s.user_id = some u)) with
  | nil => exact absurd hres hc
  | cons s stl =>
    simp only [hres]
    have hgi : db1.cart_items.filter
        (fun ci => decide (ci.session_id = g)) = [] :=
      List.filter_eq_nil_iff.mpr (fun i hi => by simp [hb i hi])
    rw [hgi]
    simp only [mergeGuestItems, List.foldl_nil]
    unfold deleteGuestSession
    rw [List.filter_eq_self.mpr (fun x hx => decide_eq_true (ha x hx)),
      List.filter_eq_self.mpr (fun x hx => decide_eq_true (hb x hx))]

/-- C4: merging the same guest session into a user's cart twice gives the
same database state (hence the same user-cart line quantities) as merging
it once, and the second invocation — against the now-deleted guest
session — succeeds as a no-op rather than failing. -/
theorem c4_merge_idempotent (db : DB) (u : Nat) (g f1 f2 : String)
    (hg : g ≠ "")
    (hf1 : f1 ≠ g)
    (hguest : ∀ s ∈ db.cart_sessions, s.user_id = some u →
      s.session_id ≠ g) :
    (mergeCarts db u (some g) f1).fst = .merged ∧
    mergeCarts (mergeCarts db u (some g) f1).snd u (some g) f2
      = (.merged, (mergeCarts db u (some g) f1).snd) := by
  have hfst : mergeCarts db u (some g) f1 = mergeCartsCore db u g f1 := by
    show (if g = "" then (MergeResult.missingSession, db)
      else mergeCartsCore db u g f1) = mergeCartsCore db u g f1
    rw [if_neg hg]
  have ha : ∀ s ∈ (mergeCartsCore db u g f1).snd.cart_sessions,
      s.session_id ≠ g := by
    rw [mergeCartsCore_snd]
    intro s hs
    simp only [deleteGuestSession] at hs
    have := (List.mem_filter.mp hs).2
    exact of_decide_eq_true this
  have hb : ∀ i ∈ (mergeCartsCore db u g f1).snd.cart_items,
      i.session_id ≠ g := by
    rw [mergeCartsCore_snd]
    intro i hi
    simp only [deleteGuestSession] at hi
    have := (List.mem_filter.mp hi).2
    exact of_decide_eq_true this
  have hc : (mergeCartsCore db u g f1).snd.cart_sessions.filter
      (fun s => decide (s.user_id = some u)) ≠ [] := by
    rw [mergeCartsCore_snd]
    have hsleft : ∃ s ∈ (resolveUserSession db u f1).snd.cart_sessions,
        s.user_id = some u ∧ s.session_id ≠ g := by
      unfold resolveUserSession
      cases hres : db.cart_sessions.filter
          (fun s => decide (s.user_id = some u)) with
      | nil =>
        refine ⟨⟨f1, some u⟩, ?_, rfl, hf1⟩
        simp only []
        exact List.mem_append_right _ (List.mem_singleton.mpr rfl)
      | cons s stl =>
        have hm : s ∈ db.cart_sessions.filter
            (fun x => decide (x.user_id = some u)) := by
          rw [hres]
          exact List.mem_cons_self s stl
        have hm2 := List.mem_filter.mp hm
        have hu : s.user_id = some u := of_decide_eq_true hm2.2
        exact ⟨s, hm2.1, hu, hguest s hm2.1 hu⟩
    obtain ⟨s, hsmem, hsu, hsg⟩ := hsleft
    apply List.ne_nil_of_mem (a := s)
    apply List.mem_filter.mpr
    refine ⟨?_, decide_eq_true hsu⟩
    simp only [deleteGuestSession]
    apply List.mem_filter.mpr
    refine ⟨?_, decide_eq_true hsg⟩
    rw [mergeGuestItems_cart_sessions]
    exact hsmem
  refine ⟨?_, ?_⟩
  · rw [hfst]
    rfl
  · rw [hfst]
    have hstep : mergeCarts (mergeCartsCore db u g f1).snd u (some g) f2
        = mergeCartsCore (mergeCartsCore db u g f1).snd u g f2 := by
      show (if g = "" then
          (MergeResult.missingSession, (mergeCartsCore db u g f1).snd)
        else mergeCartsCore (mergeCartsCore db u g f1).snd u g f2)
        = mergeCartsCore (mergeCartsCore db u g f1).snd u g f2
      rw [if_neg hg]
    rw [hstep, mergeCartsCore_self_noop _ u g f2 ha hb hc]

/-- Database for the C4 witness: user 7 owns `u-sess` with 2 units of
product 1; the guest session `g-sess` holds 3 units of product 1 and 4 of
product 2. -/
def c4DB : DB :=
  { products := [⟨1, "Widget", 10, 50, true⟩, ⟨2, "Gadget", 5, 50, true⟩]
    cart_sessions := [⟨"u-sess", some 7⟩, ⟨"g-sess", none⟩]
    cart_items :=
      [⟨1, "u-sess", 1, 2⟩, ⟨2, "g-sess", 1, 3⟩, ⟨3, "g-sess", 2, 4⟩]
    orders := []
    order_items := []
    nextCartItemId := 4
    nextOrderId := 1 }

/-- C4 witness: merging `g-sess` twice on the concrete database — the
second call succeeds and leaves the state of the first merge untouched. -/
theorem c4_merge_idempotent_witness :
    (mergeCarts c4DB 7 (some "g-sess") "fresh-1").fst = .merged ∧
    mergeCarts (mergeCarts c4DB 7 (some "g-sess") "fresh-1").snd 7
        (some "g-sess") "fresh-2"
      = (.merged, (mergeCarts c4DB 7 (some "g-sess") "fresh-1").snd) :=
  c4_merge_idempotent c4DB 7 "g-sess" "fresh-1" "fresh-2"
    (by decide) (by decide) (by decide)

end Olifera
